import Mathlib

/-!
Verification of the notebook `notebooks/idr0062_prediction_zarr_public_s3.ipynb`
(repository `omero-guide-python`): a linear pipeline that fetches a Zarr image
and its curated labels from a public S3 store, runs StarDist instance
segmentation plane by plane, and displays an interactive comparison widget.

The Python code is shallowly embedded: numpy/dask arrays become nested lists,
the remote S3 store and the external library calls (`da.from_zarr`,
`csbdeep.utils.normalize`, `StarDist2D.predict_instances`) become explicit
parameters or `Except`-valued functions, and Python `'%s'`-formatting is
modelled character by character.
-/

set_option maxRecDepth 8000
set_option linter.unusedVariables false

namespace Idr0062

/-- Python exceptions, identified by their message. -/
abbrev PyError := String

/-- A 2D image plane: a list of rows of pixel values (`y` rows of `x` pixels). -/
abbrev Plane := List (List Int)

/-- A 3D z-stack of planes. -/
abbrev Vol := List Plane

/-- A 5D array (sample `t`, channel `c`, `z`, `y`, `x`), as produced by the
Zarr store for this dataset. -/
abbrev Arr5 := List (List Vol)

/-- The polygon details returned by `predict_instances` alongside the label
plane; the notebook discards them. -/
abbrev Details := List (Int × Int)

/-- Python `'%s'`-interpolation over the template's characters: each `%s`
consumes the next argument textually; other characters are copied. -/
def pySubst : List Char → List String → List Char
  | [], _ => []
  | [c], _ => [c]
  | c1 :: c2 :: cs, args =>
    if c1 = '%' ∧ c2 = 's' then
      match args with
      | a :: rest => a.data ++ pySubst cs rest
      | [] => c1 :: pySubst (c2 :: cs) args
    else
      c1 :: pySubst (c2 :: cs) args

/-- Python `template % args` for `%s` placeholders. -/
def pyFormat (template : String) (args : List String) : String :=
  ⟨pySubst template.data args⟩

/-- The remote S3 object store: maps a URL to the stored array, or to the
exception the read raises (HTTP failure, missing key, ...). -/
abbrev ZarrStore := String → Except PyError Arr5

/-- A dask/numpy array: the underlying values together with whether the value
is still a lazily-evaluated dask graph (`lazy = true`) or a fully
materialized numpy array (`lazy = false`). -/
structure DaskArray where
  data : Arr5
  lazy : Bool
deriving DecidableEq

/-- `dask.array.from_zarr(url)`: opens the remote data at `url` as a
lazily-evaluated array; any exception of the underlying read propagates. -/
def da_from_zarr (store : ZarrStore) (url : String) : Except PyError DaskArray :=
  match store url with
  | .ok a => .ok { data := a, lazy := true }
  | .error e => .error e

/-- `numpy.asarray(a)`: forces the dask graph and returns the fully
materialized array over the same values. -/
def numpy_asarray (a : DaskArray) : DaskArray :=
  { data := a.data, lazy := false }

/-- `load_binary_from_s3(id, resolution='0')` from the notebook:
builds `endpoint_url + 'idr/zarr/v0.1/%s.zarr/%s/' % (id, resolution)` and
returns `numpy.asarray(da.from_zarr(...))` (under a `ProgressBar`, which has
no effect on the value). -/
def load_binary_from_s3 (store : ZarrStore) (id : Nat) (resolution : String := "0") :
    Except PyError DaskArray :=
  let endpoint_url := "https://s3.embassy.ebi.ac.uk/"
  let root := pyFormat "idr/zarr/v0.1/%s.zarr/%s/" [toString id, resolution]
  Except.map numpy_asarray (da_from_zarr store (endpoint_url ++ root))

/-- `load_labels_from_s3(id, resolution='0')` from the notebook:
builds `endpoint_url + 'idr/zarr/v0.1/%s.zarr/labels/%s/' % (id, resolution)`
and returns `da.from_zarr(...)` directly. -/
def load_labels_from_s3 (store : ZarrStore) (id : Nat) (resolution : String := "0") :
    Except PyError DaskArray :=
  let endpoint_url := "https://s3.embassy.ebi.ac.uk/"
  let root := pyFormat "idr/zarr/v0.1/%s.zarr/labels/%s/" [toString id, resolution]
  da_from_zarr store (endpoint_url ++ root)

/-- Extent of axis 0 (sample) of a 5D array, as in `a.shape[0]`. -/
def dim0 (a : Arr5) : Nat := a.length

/-- Extent of axis 1 (channel), as in `a.shape[1]`. -/
def dim1 (a : Arr5) : Nat := (a.headD []).length

/-- Extent of axis 2 (z), as in `a.shape[2]`. -/
def dim2 (a : Arr5) : Nat := ((a.headD []).headD []).length

/-- Extent of axis 3 (y), as in `a.shape[3]`. -/
def dim3 (a : Arr5) : Nat := (((a.headD []).headD []).headD []).length

/-- Extent of axis 4 (x), as in `a.shape[4]`. -/
def dim4 (a : Arr5) : Nat := ((((a.headD []).headD []).headD []).headD []).length

/-- `a.shape` of a 5D array. -/
def shape (a : Arr5) : List Nat := [dim0 a, dim1 a, dim2 a, dim3 a, dim4 a]

/-- The `(z, y, x)` spatial extents of a 5D array, `a.shape[2:]`. -/
def zyx (a : Arr5) : Nat × Nat × Nat := (dim2 a, dim3 a, dim4 a)

/-- The `(z, y, x)` extents of a z-stack. -/
def volShape (v : Vol) : Nat × Nat × Nat :=
  (v.length, (v.headD []).length, ((v.headD []).headD []).length)

/-- The `(y, x)` extents of a 2D plane. -/
def planeShape (p : Plane) : Nat × Nat := (p.length, (p.headD []).length)

/-- `a[i, j, :, :, :]`: numpy basic indexing on the first two axes, raising
`IndexError` when an index is out of bounds. -/
def npIndex2 (a : Arr5) (i j : Nat) : Except PyError Vol :=
  match a[i]? with
  | none => .error "IndexError"
  | some b =>
    match b[j]? with
    | none => .error "IndexError"
    | some v => .ok v

/-- `a[t, c, z, :, :]`: the 2D plane at sample `t`, channel `c`, slice `z`,
when all three indices are in bounds. -/
def getPlane (a : Arr5) (t c z : Nat) : Option Plane :=
  match a[t]? with
  | none => none
  | some b =>
    match b[c]? with
    | none => none
    | some v => v[z]?

/-- The `axis_norm = (0, 1)` constant passed to `normalize`. -/
def axis_norm : Nat × Nat := (0, 1)

/-- The inference loop of the notebook:
`for im in img: new_labels, details = model.predict_instances(im);
results.append(new_labels)` — one `predict_instances` call per plane, each
returned label plane appended unchanged, in iteration order. -/
def inference_results (predict : Plane → Plane × Details) : List Plane → List Plane
  | [] => []
  | im :: img => (predict im).1 :: inference_results predict img

/-- `numpy.array(results)`: stacks the list of 2D label planes into a 3D
array along a new leading (z) axis. -/
def numpy_array (results : List Plane) : Vol := results

/-- A StarDist 2D model: its registry name and its `predict_instances`
method, returning a label plane and polygon details. -/
structure StarDist2DModel where
  name : String
  predict_instances : Plane → Plane × Details

/-- `StarDist2D.from_pretrained(name)`: resolves `name` against the
pretrained-model registry, which downloads weights or raises. -/
def from_pretrained (registry : String → Except PyError StarDist2DModel)
    (name : String) : Except PyError StarDist2DModel :=
  registry name

/-- The `ipywidgets.IntSlider` the notebook constructs, with the fields
passed at the call site. -/
structure IntSlider where
  value : Nat
  min : Int
  max : Int
  step : Nat
  description : String
  continuous_update : Bool
deriving DecidableEq

/-- `widgets.IntSlider(value=0, min=0, max=zmax, step=1,
description="Select Z", continuous_update=False)` as called in the notebook,
with `zmax = data.shape[2] - 1`. -/
def mkSlider (zmax : Int) : IntSlider :=
  { value := 0, min := 0, max := zmax, step := 1,
    description := "Select Z", continuous_update := false }

/-- One matplotlib-visible effect of the `update` callback. -/
inductive PlotEvent where
  | figure
  | subplot (n : Nat)
  | imshowGray (p : Plane)
  | imshowOverlay (p : Plane)
  | printed (z : Nat)
  | tightLayout
  | flushEvents
deriving DecidableEq

/-- The `update(z=0)` callback of the comparison widget, as the sequence of
plotting effects it performs. Reading a plane of the three arrays is a
deferred library computation that may raise, so the callback is parametrized
by the three reads: `dataRead z` for `data[0, 0, z, :, :]`, `labelRead z`
for `labels[0, 0, z, :, :]` (a lazy dask read), and `predRead z` for
`label_slices[z, :, :]`. Only the `labels` overlay is inside the
`try: ... except Exception: print(z)` of the source; every other exception
propagates. -/
def update (dataRead labelRead predRead : Nat → Except PyError Plane)
    (z : Nat := 0) : Except PyError (List PlotEvent) :=
  match dataRead z with
  | .error e => .error e
  | .ok d1 =>
    let overlay :=
      match labelRead z with
      | .ok p => [PlotEvent.imshowOverlay p]
      | .error _ => [PlotEvent.printed z]
    match dataRead z with
    | .error e => .error e
    | .ok d2 =>
      match predRead z with
      | .error e => .error e
      | .ok p =>
        .ok ([PlotEvent.figure, PlotEvent.subplot 121, PlotEvent.imshowGray d1] ++
          overlay ++
          [PlotEvent.subplot 122, PlotEvent.imshowGray d2, PlotEvent.imshowOverlay p,
           PlotEvent.tightLayout, PlotEvent.flushEvents])

/-- The six pipeline stages of the notebook's code cells, in document order. -/
inductive Step where
  | configureId
  | fetchBinary
  | fetchLabels
  | loadModel
  | runInference
  | displayWidget
deriving DecidableEq

/-- The values the notebook session holds after the last cell ran. -/
structure NotebookState where
  image_id : Nat
  data : DaskArray
  labels : DaskArray
  model_name : String
  label_slices : Vol
  slider : IntSlider

/-- The notebook's cells run top to bottom: set `image_id = 6001247`, fetch
the binary image, fetch the labels, resolve the pretrained model `2D_demo`,
normalize `data[0, 0, :, :, :]` and run `predict_instances` per plane, and
build the slider widget (`max = data.shape[2] - 1`). External effects
(`normalize(·, 1, 99.8, axis=axis_norm)`, the model registry, the store) are
parameters; each completed stage appends its `Step` to the returned trace,
and any exception aborts the run. -/
def run_notebook (store : ZarrStore)
    (registry : String → Except PyError StarDist2DModel)
    (normalize : Vol → Vol) : Except PyError (List Step × NotebookState) :=
  let image_id : Nat := 6001247
  let tr0 := [Step.configureId]
  match load_binary_from_s3 store image_id with
  | .error e => .error e
  | .ok data =>
    let tr1 := tr0 ++ [Step.fetchBinary]
    match load_labels_from_s3 store image_id with
    | .error e => .error e
    | .ok labels =>
      let tr2 := tr1 ++ [Step.fetchLabels]
      match from_pretrained registry "2D_demo" with
      | .error e => .error e
      | .ok model_versatile =>
        let tr3 := tr2 ++ [Step.loadModel]
        match npIndex2 data.data 0 0 with
        | .error e => .error e
        | .ok vol =>
          let img := normalize vol
          let label_slices := numpy_array
            (inference_results model_versatile.predict_instances img)
          let tr4 := tr3 ++ [Step.runInference]
          let slider := mkSlider ((dim2 data.data : Int) - 1)
          let tr5 := tr4 ++ [Step.displayWidget]
          .ok (tr5,
            { image_id, data, labels, model_name := model_versatile.name,
              label_slices, slider })

/-- A tiny 1×1 plane used as concrete stored content. -/
def tinyPlane : Plane := [[7]]

/-- A tiny 5D array of shape `(1, 1, 1, 1, 1)`. -/
def tinyData : Arr5 := [[[tinyPlane]]]

/-- A concrete store holding `tinyData` at both URLs of image 6001247 and
raising 404 elsewhere. -/
def tinyStore : ZarrStore := fun url =>
  if url = "https://s3.embassy.ebi.ac.uk/idr/zarr/v0.1/6001247.zarr/0/" then
    .ok tinyData
  else if url = "https://s3.embassy.ebi.ac.uk/idr/zarr/v0.1/6001247.zarr/labels/0/" then
    .ok tinyData
  else
    .error "404 Not Found"

/-- A registry resolving every name to a model whose `predict_instances`
returns its input plane with empty details. -/
def tinyRegistry : String → Except PyError StarDist2DModel := fun n =>
  .ok { name := n, predict_instances := fun p => (p, []) }

/-- A store on which every read raises. -/
def failStore : ZarrStore := fun _ => .error "ConnectionError"

/-- A 210×253 all-zero plane, the plane shape of the recorded run. -/
def demoPlane : Plane := List.replicate 210 (List.replicate 253 0)

/-- A 257-plane z-stack of `demoPlane`, the spatial extents of the recorded
run. -/
def demoVol : Vol := List.replicate 257 demoPlane

/-- A 5D intensity array of shape `(1, 2, 257, 210, 253)`, the shape the
notebook's recorded output prints for `data`. -/
def demoData : Arr5 := [[demoVol, demoVol]]

/-- A 5D label array of shape `(1, 1, 257, 210, 253)`, the shape the
notebook's recorded output prints for `labels`. -/
def demoLabels : Arr5 := [[demoVol]]

/-- A concrete store serving image 6001247 with the recorded shapes. -/
def demoStore : ZarrStore := fun url =>
  if url = "https://s3.embassy.ebi.ac.uk/idr/zarr/v0.1/6001247.zarr/0/" then
    .ok demoData
  else if url = "https://s3.embassy.ebi.ac.uk/idr/zarr/v0.1/6001247.zarr/labels/0/" then
    .ok demoLabels
  else
    .error "404 Not Found"

/-- Concrete plane read used to exercise `update`. -/
def wDataRead : Nat → Except PyError Plane := fun _ => .ok [[5]]

/-- Concrete curated-label read that raises on every plane. -/
def wLabelRead : Nat → Except PyError Plane := fun _ => .error "plane missing"

/-- Concrete predicted-label read used to exercise `update`. -/
def wPredRead : Nat → Except PyError Plane := fun _ => .ok [[9]]

/-- Concrete predicted-label read that raises. -/
def wFailPredRead : Nat → Except PyError Plane := fun _ => .error "boom"

/-- The session state `run_notebook` reaches on `tinyStore`. -/
def tinyFinal : NotebookState :=
  { image_id := 6001247, data := { data := tinyData, lazy := false },
    labels := { data := tinyData, lazy := true }, model_name := "2D_demo",
    label_slices := [tinyPlane], slider := mkSlider 0 }

/-- A successful `da.from_zarr` always hands back a lazily-evaluated array. -/
theorem da_from_zarr_ok_lazy (store : ZarrStore) (url : String) (l : DaskArray)
    (h : da_from_zarr store url = .ok l) : l.lazy = true := by
  unfold da_from_zarr at h
  split at h
  · cases h
    rfl
  · cases h

/-- The first element of a list is its `headD`. -/
theorem headD_of_getElem_zero {α : Type} (l : List α) (x d : α)
    (h : l[0]? = some x) : l.headD d = x := by
  cases l with
  | nil => simp at h
  | cons a t => simp_all

/-- The inference loop is exactly a map of `predict_instances`' label plane
over the planes. -/
theorem inference_results_eq_map (predict : Plane → Plane × Details)
    (img : List Plane) :
    inference_results predict img = img.map (fun im => (predict im).1) := by
  induction img with
  | nil => rfl
  | cons p t ih => simp [inference_results, ih]

/-- If `predict_instances` preserves the plane shape, the inference loop
preserves the `(z, y, x)` extents. -/
theorem volShape_inference_results (predict : Plane → Plane × Details)
    (img : List Plane) (hpred : ∀ p, planeShape (predict p).1 = planeShape p) :
    volShape (inference_results predict img) = volShape img := by
  rw [inference_results_eq_map]
  cases img with
  | nil => rfl
  | cons p t =>
    have h := hpred p
    simp only [planeShape, Prod.mk.injEq] at h
    simp only [volShape, List.map_cons, List.headD_cons, List.length_cons,
      List.length_map, Prod.mk.injEq]
    exact ⟨trivial, h.1, h.2⟩

/-- Evaluating the binary-image path template: `%s` substitution is textual. -/
theorem binary_root_format (a b : String) :
    pyFormat "idr/zarr/v0.1/%s.zarr/%s/" [a, b] =
      "idr/zarr/v0.1/" ++ a ++ ".zarr/" ++ b ++ "/" := by
  apply String.ext
  show pySubst "idr/zarr/v0.1/%s.zarr/%s/".data [a, b] = _
  have h : pySubst "idr/zarr/v0.1/%s.zarr/%s/".data [a, b] =
      "idr/zarr/v0.1/".data ++ (a.data ++ (".zarr/".data ++ (b.data ++ "/".data))) := by
    simp [pySubst]
  rw [h]
  simp [String.data_append]

/-- Evaluating the label path template: `%s` substitution is textual. -/
theorem labels_root_format (a b : String) :
    pyFormat "idr/zarr/v0.1/%s.zarr/labels/%s/" [a, b] =
      "idr/zarr/v0.1/" ++ a ++ ".zarr/labels/" ++ b ++ "/" := by
  apply String.ext
  show pySubst "idr/zarr/v0.1/%s.zarr/labels/%s/".data [a, b] = _
  have h : pySubst "idr/zarr/v0.1/%s.zarr/labels/%s/".data [a, b] =
      "idr/zarr/v0.1/".data ++ (a.data ++ (".zarr/labels/".data ++ (b.data ++ "/".data))) := by
    simp [pySubst]
  rw [h]
  simp [String.data_append]

/-- `load_binary_from_s3` as the library open at its composed URL. -/
theorem load_binary_eq (store : ZarrStore) (id : Nat) (r : String) :
    load_binary_from_s3 store id r =
      Except.map numpy_asarray (da_from_zarr store
        ("https://s3.embassy.ebi.ac.uk/" ++
          ("idr/zarr/v0.1/" ++ toString id ++ ".zarr/" ++ r ++ "/"))) := by
  unfold load_binary_from_s3
  rw [binary_root_format]

/-- `load_labels_from_s3` as the library open at its composed URL. -/
theorem load_labels_eq (store : ZarrStore) (id : Nat) (r : String) :
    load_labels_from_s3 store id r =
      da_from_zarr store
        ("https://s3.embassy.ebi.ac.uk/" ++
          ("idr/zarr/v0.1/" ++ toString id ++ ".zarr/labels/" ++ r ++ "/")) := by
  unfold load_labels_from_s3
  rw [labels_root_format]

/-- C1: for every image identifier `id` and resolution string `r`,
`load_binary_from_s3` reads from the URL obtained by concatenating the
endpoint `https://s3.embassy.ebi.ac.uk/` with the template
`idr/zarr/v0.1/<id>.zarr/<r>/`, `id` and `r` substituted textually. -/
theorem load_binary_reads_composed_url (store : ZarrStore) (id : Nat) (r : String) :
    load_binary_from_s3 store id r =
      Except.map numpy_asarray (da_from_zarr store
        ("https://s3.embassy.ebi.ac.uk/" ++
          ("idr/zarr/v0.1/" ++ toString id ++ ".zarr/" ++ r ++ "/"))) :=
  load_binary_eq store id r

/-- C2: for every image identifier `id` and resolution string `r`,
`load_labels_from_s3` reads from the image-data path with a `labels/<r>/`
suffix, i.e. the URL `<endpoint>/idr/zarr/v0.1/<id>.zarr/labels/<r>/`. -/
theorem load_labels_reads_labels_url (store : ZarrStore) (id : Nat) (r : String) :
    load_labels_from_s3 store id r =
      da_from_zarr store
        ("https://s3.embassy.ebi.ac.uk/" ++
          ("idr/zarr/v0.1/" ++ toString id ++ ".zarr/labels/" ++ r ++ "/")) ∧
    "https://s3.embassy.ebi.ac.uk/" ++
        ("idr/zarr/v0.1/" ++ toString id ++ ".zarr/labels/" ++ r ++ "/") =
      ("https://s3.embassy.ebi.ac.uk/" ++ "idr/zarr/v0.1/" ++ toString id ++ ".zarr/") ++
        ("labels/" ++ r ++ "/") := by
  constructor
  · exact load_labels_eq store id r
  · rw [show (".zarr/labels/" : String) = ".zarr/" ++ "labels/" from rfl]
    simp only [String.append_assoc]

/-- C3, counterexample: at the concrete store `tinyStore`, image 6001247,
resolution `"0"`, `load_binary_from_s3` succeeds but the array it returns is
not lazy — `numpy.asarray` has materialized it. -/
theorem load_binary_not_lazy_counterexample :
    ∃ a : DaskArray, load_binary_from_s3 tinyStore 6001247 "0" = .ok a ∧
      a.lazy ≠ true :=
  ⟨{ data := tinyData, lazy := false }, rfl, by decide⟩

/-- C3, amended: `load_binary_from_s3` constructs the parameterized URL and
opens it with a library call as a lazily-evaluated array, but then converts
the result with `numpy.asarray`, so the value returned to the caller is
fully materialized (not lazy); it is `load_labels_from_s3` that returns the
lazy array. -/
theorem load_binary_materializes (store : ZarrStore) (id : Nat) (r : String) :
    (∀ a, load_binary_from_s3 store id r = .ok a →
      a.lazy = false ∧ ∃ l : DaskArray, l.lazy = true ∧
        da_from_zarr store ("https://s3.embassy.ebi.ac.uk/" ++
          ("idr/zarr/v0.1/" ++ toString id ++ ".zarr/" ++ r ++ "/")) = .ok l ∧
        a = numpy_asarray l) ∧
    (∀ b, load_labels_from_s3 store id r = .ok b → b.lazy = true) := by
  constructor
  · intro a h
    rw [load_binary_eq] at h
    cases hda : da_from_zarr store ("https://s3.embassy.ebi.ac.uk/" ++
        ("idr/zarr/v0.1/" ++ toString id ++ ".zarr/" ++ r ++ "/")) with
    | error e => rw [hda] at h; cases h
    | ok l =>
      rw [hda] at h
      cases h
      exact ⟨rfl, l, da_from_zarr_ok_lazy store _ l hda, rfl, rfl⟩
  · intro b h
    rw [load_labels_eq] at h
    exact da_from_zarr_ok_lazy store _ b h

/-- Witness for the amended C3 at the concrete store `tinyStore`. -/
theorem load_binary_materializes_witness :
    load_binary_from_s3 tinyStore 6001247 "0" = .ok { data := tinyData, lazy := false } ∧
    load_labels_from_s3 tinyStore 6001247 "0" = .ok { data := tinyData, lazy := true } ∧
    ({ data := tinyData, lazy := false } : DaskArray).lazy = false ∧
    ({ data := tinyData, lazy := true } : DaskArray).lazy = true := by
  refine ⟨rfl, rfl, ?_, ?_⟩
  · exact ((load_binary_materializes tinyStore 6001247 "0").1 _ rfl).1
  · exact (load_binary_materializes tinyStore 6001247 "0").2 _ rfl

/-- C4: for every slider index `z`, if reading the curated label plane
raises any exception, `update` catches it, prints `z`, and still performs
the whole remaining plot instead of propagating the error. -/
theorem update_catches_label_exception
    (dataRead labelRead predRead : Nat → Except PyError Plane) (z : Nat)
    (d p : Plane) (e : PyError)
    (hd : dataRead z = .ok d) (hl : labelRead z = .error e)
    (hp : predRead z = .ok p) :
    update dataRead labelRead predRead z =
      .ok [PlotEvent.figure, PlotEvent.subplot 121, PlotEvent.imshowGray d,
           PlotEvent.printed z, PlotEvent.subplot 122, PlotEvent.imshowGray d,
           PlotEvent.imshowOverlay p, PlotEvent.tightLayout,
           PlotEvent.flushEvents] := by
  unfold update
  rw [hd, hl, hp]
  rfl

/-- Witness for C4: the label read raises on every plane, the callback still
completes the plot and prints the index. -/
theorem update_catches_label_exception_witness :
    update wDataRead wLabelRead wPredRead 3 =
      .ok [PlotEvent.figure, PlotEvent.subplot 121, PlotEvent.imshowGray [[5]],
           PlotEvent.printed 3, PlotEvent.subplot 122, PlotEvent.imshowGray [[5]],
           PlotEvent.imshowOverlay [[9]], PlotEvent.tightLayout,
           PlotEvent.flushEvents] :=
  update_catches_label_exception wDataRead wLabelRead wPredRead 3
    [[5]] [[9]] "plane missing" rfl rfl rfl

/-- C10: only the curated-label overlay is guarded: an exception while
reading a grayscale intensity plane, or while reading the predicted-label
overlay, is not caught and propagates out of the callback. -/
theorem update_unguarded_errors_propagate
    (dataRead labelRead predRead : Nat → Except PyError Plane) (z : Nat)
    (e : PyError) :
    (dataRead z = .error e → update dataRead labelRead predRead z = .error e) ∧
    (∀ d, dataRead z = .ok d → predRead z = .error e →
      update dataRead labelRead predRead z = .error e) := by
  constructor
  · intro h
    unfold update
    rw [h]
  · intro d hd hp
    unfold update
    rw [hd, hp]

/-- Witness for C10: a failing predicted-overlay read propagates even though
the callback runs its exception handler for the label overlay. -/
theorem update_unguarded_errors_propagate_witness :
    update wDataRead wLabelRead wFailPredRead 2 = .error "boom" :=
  (update_unguarded_errors_propagate wDataRead wLabelRead wFailPredRead 2
    "boom").2 [[5]] rfl rfl

/-- C5: the inference loop makes exactly one `predict_instances` call per
2D z-plane of the normalized image — `label_slices` is the map of the
model's label plane over the planes, in order, with nothing added or
altered — so the predicted label array has exactly one plane per z-plane of
the input image: plane `z` of `label_slices` is exactly the model's output
on plane `z`, and the number of planes equals the input's z extent. -/
theorem inference_one_call_per_plane
    (predict : Plane → Plane × Details) (normalize : Vol → Vol) (vol : Vol)
    (hnorm : (normalize vol).length = vol.length) :
    numpy_array (inference_results predict (normalize vol)) =
      (normalize vol).map (fun im => (predict im).1) ∧
    (∀ z : Nat, (numpy_array (inference_results predict (normalize vol)))[z]? =
      ((normalize vol)[z]?).map (fun im => (predict im).1)) ∧
    (numpy_array (inference_results predict (normalize vol))).length =
      vol.length := by
  refine ⟨inference_results_eq_map predict (normalize vol), ?_, ?_⟩
  · intro z
    rw [numpy_array, inference_results_eq_map, List.getElem?_map]
  · rw [numpy_array, inference_results_eq_map, List.length_map, hnorm]

/-- Witness for C5 on a concrete 2-plane stack with the identity model. -/
theorem inference_one_call_per_plane_witness :
    numpy_array (inference_results (fun p => (p, []))
        ((fun v : Vol => v) [[[1]], [[2]]])) =
      ((fun v : Vol => v) [[[1]], [[2]]]).map
        (fun im => ((fun p : Plane => (p, ([] : Details))) im).1) ∧
    (∀ z : Nat, (numpy_array (inference_results (fun p => (p, []))
        ((fun v : Vol => v) [[[1]], [[2]]])))[z]? =
      (((fun v : Vol => v) [[[1]], [[2]]])[z]?).map
        (fun im => ((fun p : Plane => (p, ([] : Details))) im).1)) ∧
    (numpy_array (inference_results (fun p => (p, []))
        ((fun v : Vol => v) [[[1]], [[2]]]))).length =
      ([[[1]], [[2]]] : Vol).length :=
  inference_one_call_per_plane (fun p => (p, [])) (fun v => v)
    [[[1]], [[2]]] rfl

/-- C6: the fetch helpers contain no recovery or retry: whenever the
underlying library open raises, each helper propagates that same exception
unchanged to its caller, and the whole notebook pipeline (which has no
handler outside the plotting callback) propagates it as well. -/
theorem fetch_helpers_propagate_errors (store : ZarrStore)
    (registry : String → Except PyError StarDist2DModel)
    (normalize : Vol → Vol) (id : Nat) (r : String) (e : PyError) :
    (da_from_zarr store ("https://s3.embassy.ebi.ac.uk/" ++
        ("idr/zarr/v0.1/" ++ toString id ++ ".zarr/" ++ r ++ "/")) = .error e →
      load_binary_from_s3 store id r = .error e) ∧
    (da_from_zarr store ("https://s3.embassy.ebi.ac.uk/" ++
        ("idr/zarr/v0.1/" ++ toString id ++ ".zarr/labels/" ++ r ++ "/"))
        = .error e →
      load_labels_from_s3 store id r = .error e) ∧
    (load_binary_from_s3 store 6001247 "0" = .error e →
      run_notebook store registry normalize = .error e) := by
  refine ⟨?_, ?_, ?_⟩
  · intro h
    rw [load_binary_eq, h]
    rfl
  · intro h
    rw [load_labels_eq, h]
  · intro h
    simp only [run_notebook, h]

/-- Witness for C6: on a store whose every read raises `ConnectionError`,
both helpers and the pipeline return that very exception. -/
theorem fetch_helpers_propagate_errors_witness :
    load_binary_from_s3 failStore 6001247 "0" = .error "ConnectionError" ∧
    load_labels_from_s3 failStore 6001247 "0" = .error "ConnectionError" ∧
    run_notebook failStore tinyRegistry (fun v => v)
      = .error "ConnectionError" := by
  have h := fetch_helpers_propagate_errors failStore tinyRegistry
    (fun v => v) 6001247 "0" "ConnectionError"
  exact ⟨h.1 rfl, h.2.1 rfl, h.2.2 (h.1 rfl)⟩

/-- C7: in a successful run against the recorded dataset (the notebook
prints `data.shape = (1, 2, 257, 210, 253)` and
`labels.shape = (1, 1, 257, 210, 253)`), with the library contracts that
`normalize` and `predict_instances` preserve spatial shape, the three
arrays are aligned along `(z, y, x)`: the predicted label stack, the
intensity array and the curated label array all have spatial extents
`(257, 210, 253)`. -/
theorem arrays_shape_aligned
    (store : ZarrStore) (normalize : Vol → Vol)
    (predict : Plane → Plane × Details)
    (data labels : DaskArray) (vol : Vol)
    (hdata : load_binary_from_s3 store 6001247 = .ok data)
    (hlabels : load_labels_from_s3 store 6001247 = .ok labels)
    (hshape : shape data.data = [1, 2, 257, 210, 253])
    (hlshape : shape labels.data = [1, 1, 257, 210, 253])
    (hvol : npIndex2 data.data 0 0 = .ok vol)
    (hnorm : ∀ v, volShape (normalize v) = volShape v)
    (hpred : ∀ p, planeShape (predict p).1 = planeShape p) :
    volShape (numpy_array (inference_results predict (normalize vol)))
      = (257, 210, 253) ∧
    zyx data.data = (257, 210, 253) ∧
    zyx labels.data = (257, 210, 253) := by
  simp only [shape, List.cons.injEq, and_true] at hshape hlshape
  obtain ⟨-, -, h2, h3, h4⟩ := hshape
  obtain ⟨-, -, l2, l3, l4⟩ := hlshape
  have hvs : volShape vol = (257, 210, 253) := by
    unfold npIndex2 at hvol
    split at hvol
    · cases hvol
    · next b h0 =>
      split at hvol
      · cases hvol
      · next w h1 =>
        cases hvol
        have hb := headD_of_getElem_zero data.data b ([] : List Vol) h0
        have hv := headD_of_getElem_zero b vol ([] : Vol) h1
        unfold dim2 at h2
        unfold dim3 at h3
        unfold dim4 at h4
        rw [hb, hv] at h2 h3 h4
        simp only [volShape, Prod.mk.injEq]
        exact ⟨h2, h3, h4⟩
  refine ⟨?_, ?_, ?_⟩
  · rw [numpy_array, volShape_inference_results predict (normalize vol) hpred,
      hnorm, hvs]
  · simp [zyx, h2, h3, h4]
  · simp [zyx, l2, l3, l4]

/-- Witness for C7 on the concrete store `demoStore`, which serves the
recorded shapes, with a shape-preserving identity model. -/
theorem arrays_shape_aligned_witness :
    volShape (numpy_array (inference_results (fun p => (p, []))
        ((fun v : Vol => v) demoVol))) = (257, 210, 253) ∧
    zyx demoData = (257, 210, 253) ∧
    zyx demoLabels = (257, 210, 253) :=
  arrays_shape_aligned demoStore (fun v => v) (fun p => (p, []))
    { data := demoData, lazy := false } { data := demoLabels, lazy := true }
    demoVol rfl rfl rfl rfl rfl (fun _ => rfl) (fun _ => rfl)

/-- C8: the program is a linear sequence doing, in this order and each
exactly once: configure the identifier, fetch the binary image, fetch the
labels, load the pretrained model, run inference per 2D plane, and display
the comparison widget. -/
theorem notebook_linear_sequence
    (store : ZarrStore) (registry : String → Except PyError StarDist2DModel)
    (normalize : Vol → Vol) (tr : List Step) (st : NotebookState)
    (hrun : run_notebook store registry normalize = .ok (tr, st)) :
    tr = [Step.configureId, Step.fetchBinary, Step.fetchLabels,
          Step.loadModel, Step.runInference, Step.displayWidget] ∧
    ∀ s : Step, tr.count s = 1 := by
  simp only [run_notebook] at hrun
  split at hrun
  · cases hrun
  · split at hrun
    · cases hrun
    · split at hrun
      · cases hrun
      · split at hrun
        · cases hrun
        · simp only [Except.ok.injEq, Prod.mk.injEq] at hrun
          obtain ⟨h1, -⟩ := hrun
          subst h1
          exact ⟨rfl, fun s => by cases s <;> rfl⟩

/-- Witness for C8: the run on the concrete store `tinyStore` performs the
six stages in order, each once. -/
theorem notebook_linear_sequence_witness :
    run_notebook tinyStore tinyRegistry (fun v => v) =
      .ok ([Step.configureId, Step.fetchBinary, Step.fetchLabels,
            Step.loadModel, Step.runInference, Step.displayWidget],
           tinyFinal) ∧
    ∀ s : Step,
      [Step.configureId, Step.fetchBinary, Step.fetchLabels, Step.loadModel,
       Step.runInference, Step.displayWidget].count s = 1 := by
  refine ⟨rfl, ?_⟩
  exact (notebook_linear_sequence tinyStore tinyRegistry (fun v => v)
    _ tinyFinal rfl).2

/-- C9: the slider is built with `min = 0`, `max = data.shape[2] - 1` and
`step = 1`, so every slider value `z` indexes both `data[0, 0, z]` and
`label_slices[z]` in bounds. -/
theorem slider_indexing_in_bounds
    (store : ZarrStore) (normalize : Vol → Vol)
    (predict : Plane → Plane × Details) (data : DaskArray) (vol : Vol)
    (hdata : load_binary_from_s3 store 6001247 = .ok data)
    (hshape : shape data.data = [1, 2, 257, 210, 253])
    (hvol : npIndex2 data.data 0 0 = .ok vol)
    (hnorm : (normalize vol).length = vol.length)
    (z : Nat)
    (hz : (z : Int) ≤ (mkSlider ((dim2 data.data : Int) - 1)).max) :
    (mkSlider ((dim2 data.data : Int) - 1)).min = 0 ∧
    (mkSlider ((dim2 data.data : Int) - 1)).step = 1 ∧
    (mkSlider ((dim2 data.data : Int) - 1)).max = 256 ∧
    (getPlane data.data 0 0 z).isSome = true ∧
    z < (numpy_array (inference_results predict (normalize vol))).length := by
  simp only [shape, List.cons.injEq, and_true] at hshape
  obtain ⟨-, -, h2, -, -⟩ := hshape
  have hz' : z < 257 := by
    simp only [mkSlider, h2] at hz
    omega
  unfold npIndex2 at hvol
  split at hvol
  · cases hvol
  · next b h0 =>
    split at hvol
    · cases hvol
    · next w h1 =>
      cases hvol
      have hb := headD_of_getElem_zero data.data b ([] : List Vol) h0
      have hv := headD_of_getElem_zero b vol ([] : Vol) h1
      have hlen : vol.length = 257 := by
        unfold dim2 at h2
        rw [hb, hv] at h2
        exact h2
      refine ⟨rfl, rfl, by rw [h2]; rfl, ?_, ?_⟩
      · simp only [getPlane, h0, h1]
        rw [List.getElem?_eq_getElem (show z < vol.length by omega)]
        rfl
      · rw [numpy_array, inference_results_eq_map, List.length_map, hnorm,
          hlen]
        exact hz'

/-- Witness for C9 on the concrete store `demoStore` at slider value 0. -/
theorem slider_indexing_in_bounds_witness :
    (mkSlider ((dim2 demoData : Int) - 1)).min = 0 ∧
    (mkSlider ((dim2 demoData : Int) - 1)).step = 1 ∧
    (mkSlider ((dim2 demoData : Int) - 1)).max = 256 ∧
    (getPlane demoData 0 0 0).isSome = true ∧
    0 < (numpy_array (inference_results (fun p => (p, []))
        ((fun v : Vol => v) demoVol))).length :=
  slider_indexing_in_bounds demoStore (fun v => v) (fun p => (p, []))
    { data := demoData, lazy := false } demoVol rfl rfl rfl rfl 0 (by decide)

end Idr0062
